import Mathlib

/-!
Shallow embedding of the process-viewer core (src/display_procs.rs,
src/process_dialog.rs, src/display_sysinfo.rs).

Modelling conventions:
* Rust `u32`/`u64` are `Nat`; `f32`/`f64` samples are exact rationals `ℚ`
  (the claims under study do not hinge on binary rounding, and every
  concrete value used is settled identically in `f32`/`f64` and `ℚ`).
* Rust `String` is Lean `String`; `str::to_lowercase` is modelled with
  `Char.toLower` (ASCII case folding; every concrete input is ASCII).
* Fallible operations (a `get_mut` whose `expect` would panic) return
  `Option`, with `none` modelling the panic.
-/

/-- Contiguous-substring test on character lists: `containsSub h n` is true
iff `n` occurs contiguously inside `h`, mirroring Rust `h.contains(n)`.
An empty needle is contained in every haystack. -/
def containsSub (h n : List Char) : Bool :=
  match h with
  | [] => n.isEmpty
  | c :: t => n.isPrefixOf (c :: t) || containsSub t n

/-- Rust `h.contains(n)` on strings. -/
def strContains (h n : String) : Bool :=
  containsSub h.toList n.toList

/-- Rust `s.to_lowercase()` (ASCII case folding). -/
def lowerStr (s : String) : String :=
  String.mk (s.toList.map Char.toLower)

/-- The spec's bidirectional substring match: either string contains the
other (§3 FilterState). -/
def bidirectional_substring_match (a b : String) : Bool :=
  strContains b a || strContains a b

/-- The `set_visible_func` closure of `Procs::new`
(src/display_procs.rs lines 144-170). `active` models "the filter entry is
visible"; the code tests emptiness of the entry text twice
(`text_length() < 1` at line 146 and `text.is_empty()` at line 150), both
collapse to one emptiness test on the same text. `pidStr` and `nameStr`
are the strings read back from model columns 0 and 1 (a failed readback
yields `""` via `unwrap_or_else(String::new)`). -/
def row_visible (active : Bool) (query pidStr nameStr : String) : Bool :=
  if !active || query.isEmpty then
    true
  else
    let pid := pidStr
    let name := lowerStr nameStr
    strContains pid query || strContains query pid ||
      strContains name query || strContains query name

/-- One row of the `gtk::ListStore` built in `Procs::new`
(src/display_procs.rs lines 65-77): columns 0-4 are the displayed
pid/name/CPU/memory/disk strings, columns 5-8 the sort keys. -/
structure Row where
  pid : Nat
  name : String
  cpu_display : String
  mem_display : String
  disk_display : String
  name_lowercase : String
  cpu_f32 : ℚ
  mem_u64 : Nat
  disk_u64 : Nat
  deriving DecidableEq

/-- Round the fraction `a / b` (with `b > 0`) to the nearest integer,
ties to even — the rounding Rust's fixed-precision float formatting
performs on the scaled value. Computed on the numerator and denominator
directly so it evaluates by kernel reduction. -/
def rheFrac (a : ℤ) (b : ℕ) : ℤ :=
  let bi : ℤ := b
  let fl := Int.fdiv a bi
  let r := a - fl * bi
  if 2 * r < bi then fl
  else if bi < 2 * r then fl + 1
  else if fl % 2 = 0 then fl else fl + 1

/-- Rust `format!("{:.1}", x)` for the non-negative CPU values this code
formats: one decimal digit, value rounded to nearest (ties to even). -/
def fmt1 (q : ℚ) : String :=
  let n := rheFrac (q.num * 10) q.den
  toString (n / 10) ++ "." ++ toString ((n % 10).toNat)

/-- Modelled from the spec: `format_number` lives in `crate::utils`, which
is not under src/. Per §4.4 it is "a magnitude-scaling byte formatter";
the claims below use it only as a fixed total function from a byte count
to its display string, so the exact digit layout is immaterial; modelled
with the §4.2 threshold table. -/
def format_number (n : Nat) : String :=
  if n < 100000 then toString n ++ " B"
  else if n < 10000000 then toString (n / 1000) ++ " kB"
  else if n < 10000000000 then toString (n / 1000000) ++ " MB"
  else toString (n / 1000000000) ++ " GB"

/-- `create_and_fill_model` (src/display_procs.rs lines 270-295): skips
the entry when the command line or the name is empty, otherwise appends a
row whose display strings and sort keys come from the same raw inputs. -/
def create_and_fill_model (store : List Row) (pid : Nat)
    (cmdline : List String) (name : String) (cpu : ℚ) (memory : Nat) :
    List Row :=
  if cmdline.isEmpty || name.isEmpty then
    store
  else
    store ++ [{ pid := pid
                name := name
                cpu_display := fmt1 cpu
                mem_display := format_number memory
                disk_display := ""
                name_lowercase := lowerStr name
                cpu_f32 := cpu
                mem_u64 := memory
                disk_u64 := 0 }]

/-- Modelled from the spec: `RotateVec` lives in `crate::utils`, which is
not under src/. Per §4.1 it is the RotatingBuffer: a fixed-capacity
circular sample buffer where index 0 is the most recent sample and
`get_mut(i)` yields a "no such index" signal when `i` is at or beyond the
capacity. `move_start` rotates the window so the stale oldest sample
becomes index 0 (the callers immediately overwrite it, realizing
`push_front`). -/
structure RotateVec where
  data : List ℚ
  deriving DecidableEq

/-- Rotate the buffer one step: the last element becomes index 0. -/
def RotateVec.move_start (r : RotateVec) : RotateVec :=
  match r.data.getLast? with
  | none => r
  | some x => ⟨x :: r.data.dropLast⟩

/-- Write through `get_mut(i)` at a call site that panics on the "no such
index" signal (`.expect(...)`): `none` models the panic. -/
def RotateVec.set (r : RotateVec) (i : Nat) (v : ℚ) : Option RotateVec :=
  if i < r.data.length then some ⟨r.data.set i v⟩ else none

/-- Write through `get_mut(i)` at a call site that ignores the "no such
index" signal (`if let Some(p) = ...`): out of range leaves the buffer
unchanged. -/
def RotateVec.setD (r : RotateVec) (i : Nat) (v : ℚ) : RotateVec :=
  if i < r.data.length then ⟨r.data.set i v⟩ else r

/-- The process fields `ProcDialog::update` reads from the snapshot
provider (src/process_dialog.rs lines 48-85): `memory` is in kB. -/
structure ProcessInfo where
  cwd : String
  memory : Nat
  disk_written : Nat
  disk_read : Nat
  cpu_usage : ℚ
  run_time : Nat
  deriving DecidableEq

/-- The mutable state of a `ProcDialog` (src/process_dialog.rs lines
20-39): label texts, peak values, deadness, and the single series of each
of the three history graphs. `memory_peak_writes` / `disk_peak_writes`
are ghost counters of the `set_text` calls on the two peak labels. -/
structure ProcDialogState where
  working_directory : String
  memory_usage : String
  disk_usage : String
  cpu_usage : String
  run_time : String
  memory_peak : Nat
  memory_peak_label : String
  memory_peak_writes : Nat
  disk_peak : Nat
  disk_peak_label : String
  disk_peak_writes : Nat
  is_dead : Bool
  ram_hist : RotateVec
  cpu_hist : RotateVec
  disk_hist : RotateVec
  deriving DecidableEq

/-- `format_time` (src/process_dialog.rs lines 105-134). -/
def format_time (t : Nat) : String :=
  (if t / 86400 > 0 then toString (t / 86400) ++ "d " else "") ++
    (if t / 3600 % 24 > 0 then toString (t / 3600 % 24) ++ "h " else "") ++
    (if t / 60 % 60 > 0 then toString (t / 60 % 60) ++ "m " else "") ++
    toString (t % 60) ++ "s"

/-- `ProcDialog::update` (src/process_dialog.rs lines 48-85): early
return when dead; memory is `process.memory() * 1000` (kB to bytes); each
peak and its label are rewritten only when the fresh value strictly
exceeds the stored peak; the three history buffers receive the new sample
at index 0 through `move_start` plus a `get_mut(0)` whose `expect` panics
(modelled as `none`) on the "no such index" signal. -/
def pd_update (s : ProcDialogState) (p : ProcessInfo) :
    Option ProcDialogState :=
  if s.is_dead then some s else
  let memory := p.memory * 1000
  let memory_s := format_number memory
  let disk := p.disk_written + p.disk_read
  let disk_s := format_number disk
  match (s.ram_hist.move_start).set 0 (memory : ℚ),
      (s.cpu_hist.move_start).set 0 p.cpu_usage,
      (s.disk_hist.move_start).set 0 (disk : ℚ) with
  | some ram1, some cpu1, some disk1 =>
    some { working_directory := p.cwd
           memory_usage := memory_s
           disk_usage := disk_s
           cpu_usage := fmt1 p.cpu_usage ++ "%"
           run_time := format_time p.run_time
           memory_peak := if memory > s.memory_peak then memory
             else s.memory_peak
           memory_peak_label := if memory > s.memory_peak then memory_s
             else s.memory_peak_label
           memory_peak_writes := if memory > s.memory_peak then
             s.memory_peak_writes + 1 else s.memory_peak_writes
           disk_peak := if disk > s.disk_peak then disk else s.disk_peak
           disk_peak_label := if disk > s.disk_peak then disk_s
             else s.disk_peak_label
           disk_peak_writes := if disk > s.disk_peak then
             s.disk_peak_writes + 1 else s.disk_peak_writes
           is_dead := false
           ram_hist := ram1
           cpu_hist := cpu1
           disk_hist := disk1 }
  | _, _, _ => none

/-- A sequence of `ProcDialog::update` calls; `none` as soon as one call
panics. -/
def pd_updates (s : ProcDialogState) (ps : List ProcessInfo) :
    Option ProcDialogState :=
  match ps with
  | [] => some s
  | p :: rest =>
    match pd_update s p with
    | some s1 => pd_updates s1 rest
    | none => none

/-- `ProcDialog::set_dead` (src/process_dialog.rs lines 91-102): early
return when already dead, otherwise freeze the displays and rewrite the
run-time label. -/
def set_dead (s : ProcDialogState) : ProcDialogState :=
  if s.is_dead then s else
  { s with
    is_dead := true
    memory_usage := "0"
    disk_usage := "0"
    cpu_usage := "0%"
    run_time := "Ran for " ++
      (if s.run_time.isEmpty then "0s" else s.run_time) }

/-- The four axis labels a graph label callback produces: top value, mid
value, bottom string, unit string. The Rust callback renders the top and
mid values to strings (`to_string` / `format!("{:.1}", _)`); the numeric
payloads passed to that rendering are modelled exactly, the digit layout
of the rendering itself is presentation. -/
structure AxisLabels where
  top : ℚ
  mid : ℚ
  bottom : String
  unit : String
  deriving DecidableEq

/-- The divisor that takes the raw value `v` into the selected unit, per
branch of the callback below. -/
def ram_label_divisor (v : ℚ) : ℚ :=
  if v < 100000 then 1
  else if v < 10000000 then 1000
  else if v < 10000000000 then 1000000
  else 1000000000

/-- The RAM-graph label callback of `DisplaySysInfo::new`
(src/display_sysinfo.rs lines 104-134): unit chosen by comparing the
ceiling `v` against fixed thresholds, top label `v` over the per-unit
divisor, mid label `v / 2` over the same divisor, bottom always "0".
Divisions are expressed through `mkRat` on the numerator and denominator
so the definition evaluates by kernel reduction. -/
def ram_label_callback (v : ℚ) : AxisLabels :=
  let half := mkRat v.num (2 * v.den)
  if v < 100000 then
    { top := v, mid := half, bottom := "0", unit := "kB" }
  else if v < 10000000 then
    { top := mkRat v.num (1000 * v.den), mid := mkRat v.num (2000 * v.den)
      bottom := "0", unit := "MB" }
  else if v < 10000000000 then
    { top := mkRat v.num (1000000 * v.den)
      mid := mkRat v.num (2000000 * v.den), bottom := "0", unit := "GB" }
  else
    { top := mkRat v.num (1000000000 * v.den)
      mid := mkRat v.num (2000000000 * v.den), bottom := "0", unit := "TB" }

/-- The global aggregates `DisplaySysInfo::update_system_info` reads from
the snapshot provider (memory figures in kB). -/
structure SysInfo where
  total_memory : Nat
  used_memory : Nat
  total_swap : Nat
  used_swap : Nat
  deriving DecidableEq

/-- The memory-related state `DisplaySysInfo::update_system_info`
mutates (src/display_sysinfo.rs lines 344-388): the RAM and swap
progress-bar texts and fractions, and the two series (RAM, swap) of the
memory history graph. The temperature section (lines 390-410) touches
disjoint state and is outside this embedding. -/
structure DisplaySysInfoState where
  ram_text : String
  ram_fraction : ℚ
  swap_text : String
  swap_fraction : ℚ
  ram_series : RotateVec
  swap_series : RotateVec
  deriving DecidableEq

/-- `DisplaySysInfo::update_system_info`, memory part
(src/display_sysinfo.rs lines 344-388). The progress-bar texts format
`used * 1000` and `total * 1000`; a zero total yields fraction `0`; the
history samples store the raw (kB) used values through a `get_mut(0)`
whose failure is ignored (`if let Some`). The `is_nan` normalization is
vacuous over `ℚ`; fractions are formed with `mkRat` on numerator and
denominator so the definition evaluates by kernel reduction. -/
def update_system_info (st : DisplaySysInfoState) (sys : SysInfo) :
    DisplaySysInfoState :=
  let disp := fun (total used : Nat) =>
    format_number (used * 1000) ++ " / " ++ format_number (total * 1000)
  let total_ram := sys.total_memory
  let used_ram := sys.used_memory
  let ram_fraction : ℚ :=
    if total_ram ≠ 0 then mkRat used_ram total_ram else 0
  let ram_series := (st.ram_series.move_start).setD 0 (used_ram : ℚ)
  let total := max sys.total_swap total_ram
  let used_swap := sys.used_swap
  let swap_fraction : ℚ := if total ≠ 0 then mkRat used_swap total else 0
  let swap_series := (st.swap_series.move_start).setD 0 (used_swap : ℚ)
  { ram_text := disp total_ram used_ram
    ram_fraction := ram_fraction
    swap_text := disp sys.total_swap used_swap
    swap_fraction := swap_fraction
    ram_series := ram_series
    swap_series := swap_series }

/-- One process entry as the `Procs::new` loop reads it
(src/display_procs.rs lines 79-95): `exe_file_name` models
`exe().file_name().and_then(to_str)` and `memory` is in kB. -/
structure ProcessEntry where
  pid : Nat
  exe_file_name : Option String
  name : String
  cmd : List String
  cpu_usage : ℚ
  memory : Nat
  deriving DecidableEq

/-- The `Procs::new` population loop (src/display_procs.rs lines 79-95):
the displayed name is the executable file name, falling back to the
process name, and the memory handed to `create_and_fill_model` is
`memory() * 1000`. -/
def procs_new_fill (store : List Row) (entries : List ProcessEntry) :
    List Row :=
  entries.foldl
    (fun st e =>
      create_and_fill_model st e.pid e.cmd (e.exe_file_name.getD e.name)
        e.cpu_usage (e.memory * 1000))
    store

/-! Concrete sample states used by scenario conjuncts and witnesses. -/

/-- A snapshot entry with the given memory (kB) and all other fields
trivial. -/
def sampleP (m : Nat) : ProcessInfo :=
  { cwd := "", memory := m, disk_written := 0, disk_read := 0
    cpu_usage := 0, run_time := 0 }

/-- A live dialog state with both peaks at 0 and two-sample history
buffers. -/
def sampleS0 : ProcDialogState :=
  { working_directory := "", memory_usage := "", disk_usage := ""
    cpu_usage := "", run_time := "", memory_peak := 0
    memory_peak_label := "", memory_peak_writes := 0, disk_peak := 0
    disk_peak_label := "", disk_peak_writes := 0, is_dead := false
    ram_hist := ⟨[0, 0]⟩, cpu_hist := ⟨[0, 0]⟩, disk_hist := ⟨[0, 0]⟩ }

/-- The state `pd_update sampleS0 (sampleP 100)` produces. -/
def sampleS1 : ProcDialogState :=
  { working_directory := "", memory_usage := format_number 100000
    disk_usage := format_number 0, cpu_usage := fmt1 0 ++ "%"
    run_time := format_time 0, memory_peak := 100000
    memory_peak_label := format_number 100000, memory_peak_writes := 1
    disk_peak := 0, disk_peak_label := "", disk_peak_writes := 0
    is_dead := false, ram_hist := ⟨[100000, 0]⟩, cpu_hist := ⟨[0, 0]⟩
    disk_hist := ⟨[0, 0]⟩ }

/-- A dialog state whose history buffers have zero capacity. -/
def emptyHistS : ProcDialogState :=
  { working_directory := "", memory_usage := "", disk_usage := ""
    cpu_usage := "", run_time := "", memory_peak := 0
    memory_peak_label := "", memory_peak_writes := 0, disk_peak := 0
    disk_peak_label := "", disk_peak_writes := 0, is_dead := false
    ram_hist := ⟨[]⟩, cpu_hist := ⟨[]⟩, disk_hist := ⟨[]⟩ }

/-- A sysinfo display state with two-sample series. -/
def sampleSt : DisplaySysInfoState :=
  { ram_text := "", ram_fraction := 0, swap_text := "", swap_fraction := 0
    ram_series := ⟨[0, 0]⟩, swap_series := ⟨[0, 0]⟩ }

/-- A sysinfo display state with zero-capacity series. -/
def emptySt : DisplaySysInfoState :=
  { ram_text := "", ram_fraction := 0, swap_text := "", swap_fraction := 0
    ram_series := ⟨[]⟩, swap_series := ⟨[]⟩ }

/-- A global snapshot with 7 of 10 kB of memory used and no swap. -/
def sampleSys : SysInfo :=
  { total_memory := 10, used_memory := 7, total_swap := 0, used_swap := 0 }

theorem setD_empty (r : RotateVec) (v : ℚ) (h : r.data = []) :
    (r.move_start).setD 0 v = r := by
  simp [RotateVec.move_start, RotateVec.setD, h]

/-! Helper lemmas shared by the claim theorems. -/

theorem containsSub_nil (l : List Char) : containsSub l [] = true := by
  cases l <;> simp [containsSub, List.isPrefixOf]

theorem string_isEmpty_false (s : String) (h : s ≠ "") :
    s.isEmpty = false := by
  rw [Bool.eq_false_iff]
  intro he
  exact h ((String.isEmpty_iff s).mp he)

theorem list_isEmpty_false (l : List String) (h : l ≠ []) :
    l.isEmpty = false := by
  simp [List.isEmpty_iff, h]

theorem head?_set_zero (l : List ℚ) (v : ℚ) (h : 0 < l.length) :
    (l.set 0 v).head? = some v := by
  cases l with
  | nil => simp at h
  | cons a t => rfl

theorem move_start_length (r : RotateVec) :
    r.move_start.data.length = r.data.length := by
  unfold RotateVec.move_start
  cases h : r.data.getLast? with
  | none => rfl
  | some x =>
    have hne : r.data ≠ [] := by
      intro hnil
      rw [hnil] at h
      simp at h
    have hp : 0 < r.data.length := List.length_pos.mpr hne
    simp [List.length_dropLast]
    omega

theorem mkRat_num_mul_den (v : ℚ) (k : ℕ) :
    mkRat v.num (k * v.den) = v / k := by
  rw [Rat.mkRat_eq_div, Nat.cast_mul, mul_comm ((k : ℚ)) ((v.den : ℚ)),
    ← div_div, Rat.num_div_den]

theorem create_and_fill_model_append (store : List Row) (pid : Nat)
    (cmdline : List String) (name : String) (cpu : ℚ) (memory : Nat)
    (hc : cmdline ≠ []) (hn : name ≠ "") :
    create_and_fill_model store pid cmdline name cpu memory =
      store ++ [{ pid := pid
                  name := name
                  cpu_display := fmt1 cpu
                  mem_display := format_number memory
                  disk_display := ""
                  name_lowercase := lowerStr name
                  cpu_f32 := cpu
                  mem_u64 := memory
                  disk_u64 := 0 }] := by
  simp [create_and_fill_model, list_isEmpty_false cmdline hc,
    string_isEmpty_false name hn]

theorem pd_update_alive (s : ProcDialogState) (p : ProcessInfo)
    (s' : ProcDialogState) (h : pd_update s p = some s')
    (hd : s.is_dead = false) :
    s'.memory_usage = format_number (p.memory * 1000) ∧
    s'.memory_peak = (if p.memory * 1000 > s.memory_peak then
      p.memory * 1000 else s.memory_peak) ∧
    s'.memory_peak_label = (if p.memory * 1000 > s.memory_peak then
      format_number (p.memory * 1000) else s.memory_peak_label) ∧
    s'.memory_peak_writes = (if p.memory * 1000 > s.memory_peak then
      s.memory_peak_writes + 1 else s.memory_peak_writes) ∧
    s'.disk_peak = (if p.disk_written + p.disk_read > s.disk_peak then
      p.disk_written + p.disk_read else s.disk_peak) ∧
    s'.disk_peak_label = (if p.disk_written + p.disk_read > s.disk_peak then
      format_number (p.disk_written + p.disk_read) else s.disk_peak_label) ∧
    s'.disk_peak_writes = (if p.disk_written + p.disk_read > s.disk_peak then
      s.disk_peak_writes + 1 else s.disk_peak_writes) ∧
    s'.is_dead = false ∧
    s'.ram_hist.data.head? = some ((p.memory * 1000 : Nat) : ℚ) := by
  unfold pd_update at h
  rw [hd] at h
  simp only [Bool.false_eq_true, if_false] at h
  cases hA : (s.ram_hist.move_start).set 0 ((p.memory * 1000 : Nat) : ℚ) with
  | none => rw [hA] at h; simp at h
  | some r1 =>
    cases hB : (s.cpu_hist.move_start).set 0 p.cpu_usage with
    | none => rw [hA, hB] at h; simp at h
    | some r2 =>
      cases hC : (s.disk_hist.move_start).set 0
          ((p.disk_written + p.disk_read : Nat) : ℚ) with
      | none => rw [hA, hB, hC] at h; simp at h
      | some r3 =>
        rw [hA, hB, hC] at h
        simp only [Option.some.injEq] at h
        subst h
        refine ⟨rfl, rfl, rfl, rfl, rfl, rfl, rfl, rfl, ?_⟩
        unfold RotateVec.set at hA
        by_cases hlen : 0 < (s.ram_hist.move_start).data.length
        · rw [if_pos hlen] at hA
          simp only [Option.some.injEq] at hA
          subst hA
          exact head?_set_zero _ _ hlen
        · rw [if_neg hlen] at hA
          exact absurd hA (by simp)

theorem pd_update_dead (s : ProcDialogState) (p : ProcessInfo)
    (hd : s.is_dead = true) : pd_update s p = some s := by
  simp [pd_update, hd]

theorem pd_update_mono (s : ProcDialogState) (p : ProcessInfo)
    (s' : ProcDialogState) (h : pd_update s p = some s') :
    s.memory_peak ≤ s'.memory_peak ∧ s.disk_peak ≤ s'.disk_peak := by
  by_cases hd : s.is_dead = true
  · rw [pd_update_dead s p hd] at h
    simp only [Option.some.injEq] at h
    subst h
    exact ⟨le_refl _, le_refl _⟩
  · rw [Bool.not_eq_true] at hd
    obtain ⟨-, hmp, -, -, hdp, -, -, -, -⟩ := pd_update_alive s p s' h hd
    constructor
    · rw [hmp]; split <;> omega
    · rw [hdp]; split <;> omega

theorem pd_updates_mono (ps : List ProcessInfo) :
    ∀ s s', pd_updates s ps = some s' →
      s.memory_peak ≤ s'.memory_peak ∧ s.disk_peak ≤ s'.disk_peak := by
  induction ps with
  | nil =>
    intro s s' h
    simp only [pd_updates, Option.some.injEq] at h
    subst h
    exact ⟨le_refl _, le_refl _⟩
  | cons p rest ih =>
    intro s s' h
    unfold pd_updates at h
    cases hstep : pd_update s p with
    | none => rw [hstep] at h; simp at h
    | some s1 =>
      rw [hstep] at h
      have h1 := pd_update_mono s p s1 hstep
      have h2 := ih s1 s' h
      exact ⟨le_trans h1.1 h2.1, le_trans h1.2 h2.2⟩

/-- C1: for every filter state and row, the row is visible iff the filter
entry is inactive, or the query is empty, or the query and the pid
rendered as a decimal string each contain the other, or the query and the
lower-cased name each contain the other; match("123", pid 123) and
match("1234", pid 123) are true, match("xyz", an unrelated row) is false,
and an empty query makes every row visible regardless of the active
flag. -/
theorem claim_C1_filter_visibility :
    (∀ (active : Bool) (query : String) (pid : Nat) (name : String),
      row_visible active query (toString pid) name =
        (!active || query.isEmpty ||
          bidirectional_substring_match query (toString pid) ||
          bidirectional_substring_match query (lowerStr name))) ∧
    row_visible true "123" (toString 123) "proc" = true ∧
    row_visible true "1234" (toString 123) "proc" = true ∧
    row_visible true "xyz" (toString 123) "bash" = false ∧
    (∀ (active : Bool) (pidStr nameStr : String),
      row_visible active "" pidStr nameStr = true) := by
  refine ⟨?_, by decide, by decide, by decide, ?_⟩
  · intro active query pid name
    cases active <;> cases hq : query.isEmpty <;>
      simp [row_visible, bidirectional_substring_match, hq, Bool.or_assoc]
  · intro active ps ns
    cases active <;>
      simp [row_visible, show String.isEmpty "" = true from rfl]

/-- C10: a row whose name reads back as the empty string is visible under
every query (the bidirectional test includes query-contains-name, and
every string contains the empty string); the same holds for a row whose
pid reads back as the empty string. -/
theorem claim_C10_empty_readback_always_visible :
    ∀ (active : Bool) (query pidStr nameStr : String), query ≠ "" →
      row_visible active query pidStr "" = true ∧
      row_visible active query "" nameStr = true := by
  intro active query ps ns hq
  have hname : strContains query (lowerStr "") = true :=
    containsSub_nil query.toList
  have hpid : strContains query "" = true := containsSub_nil query.toList
  constructor <;> unfold row_visible <;> split
  · rfl
  · simp [hname]
  · rfl
  · simp [hpid]

theorem claim_C10_empty_readback_always_visible_witness :
    row_visible true "xyz" "123" "" = true ∧
    row_visible true "xyz" "" "bash" = true :=
  claim_C10_empty_readback_always_visible true "xyz" "123" "bash"
    (by decide)

/-- C2 counterexample: an entry with a non-empty name but an empty
command line is also skipped (`create_and_fill_model` skips when either
is empty, not only when both are), so the row is absent although the
claim requires it to be inserted. -/
theorem claim_C2_counterexample :
    create_and_fill_model [] 1 [] "sh" 5 2048 = [] ∧
    ("sh" : String) ≠ "" := by
  exact ⟨rfl, by decide⟩

/-- C2 (amended): no row is inserted precisely when the entry's name is
empty OR its command line is empty; reconciling pid 1 with empty name and
empty command line leaves the row absent, and a subsequent entry
{pid 1, cpu 5.0, mem 2048, name "sh", cmd ["sh"]} inserts a row whose CPU
sort key equals 5.0. -/
theorem claim_C2_empty_entry_filtering :
    (∀ (store : List Row) (pid : Nat) (cmdline : List String)
        (name : String) (cpu : ℚ) (memory : Nat),
      create_and_fill_model store pid cmdline name cpu memory = store ↔
        (cmdline = [] ∨ name = "")) ∧
    create_and_fill_model [] 1 [] "" 0 0 = [] ∧
    (create_and_fill_model (create_and_fill_model [] 1 [] "" 0 0) 1
        ["sh"] "sh" 5 2048).map
      (fun r => (r.pid, r.cpu_f32, r.mem_u64)) = [(1, 5, 2048)] := by
  refine ⟨?_, rfl, by decide⟩
  intro store pid cmdline name cpu memory
  by_cases hc : cmdline = []
  · simp [create_and_fill_model, hc]
  · by_cases hn : name = ""
    · simp [create_and_fill_model, hc, hn,
        show String.isEmpty "" = true from rfl]
    · rw [create_and_fill_model_append store pid cmdline name cpu memory
        hc hn]
      simp [hc, hn]

/-- C6: `format_time` decomposes `t` into days `t / 86400`, hours
`t / 3600 % 24`, minutes `t / 60 % 60` and seconds `t % 60`, emits each
of days/hours/minutes only when that unit is non-zero, and always ends
with the seconds followed by "s"; `format_time 65 = "1m 5s"`,
`format_time 3600 = "1h 0s"` (zero minutes omitted), and
`format_time 90061 = "1d 1h 1m 1s"`. -/
theorem claim_C6_format_time :
    (∀ t : Nat, format_time t =
      (if t / 86400 > 0 then toString (t / 86400) ++ "d " else "") ++
        (if t / 3600 % 24 > 0 then toString (t / 3600 % 24) ++ "h "
          else "") ++
        (if t / 60 % 60 > 0 then toString (t / 60 % 60) ++ "m " else "") ++
        toString (t % 60) ++ "s") ∧
    format_time 65 = "1m 5s" ∧
    format_time 3600 = "1h 0s" ∧
    format_time 90061 = "1d 1h 1m 1s" :=
  ⟨fun _ => rfl, by decide, by decide, by decide⟩

/-- C3 counterexample: the claim asserts that a row with cpu 9.94 is
displayed "10.0"; the code's one-decimal rounding displays it as "9.9"
(9.94 rounds down), so the claim's example is false on the code. -/
theorem claim_C3_counterexample :
    (create_and_fill_model [] 1 ["a"] "a" (mkRat 994 100) 0).map
        (fun r => r.cpu_display) = ["9.9"] ∧
    ("9.9" : String) ≠ "10.0" := by
  exact ⟨by decide, by decide⟩

/-- C3 (amended): every row inserted by `create_and_fill_model` stores,
together with its display strings, sort keys computed from the same raw
inputs — the lower-cased name (column 5), the unrounded cpu value
(column 6) and the raw byte count (column 7) — so sorting is by true
numeric / case-folded order and unaffected by the one-decimal display
rounding: rows with cpu 9.96 and 9.98 are both displayed "10.0" yet
still order numerically by the stored keys. -/
theorem claim_C3_sort_keys_consistent :
    (∀ (store : List Row) (pid : Nat) (cmdline : List String)
        (name : String) (cpu : ℚ) (memory : Nat),
      cmdline ≠ [] → name ≠ "" →
      create_and_fill_model store pid cmdline name cpu memory =
        store ++ [{ pid := pid
                    name := name
                    cpu_display := fmt1 cpu
                    mem_display := format_number memory
                    disk_display := ""
                    name_lowercase := lowerStr name
                    cpu_f32 := cpu
                    mem_u64 := memory
                    disk_u64 := 0 }]) ∧
    fmt1 (mkRat 996 100) = "10.0" ∧
    fmt1 (mkRat 998 100) = "10.0" ∧
    mkRat 996 100 < mkRat 998 100 := by
  refine ⟨?_, by decide, by decide, by decide⟩
  intro store pid cmdline name cpu memory hc hn
  exact create_and_fill_model_append store pid cmdline name cpu memory
    hc hn

theorem claim_C3_sort_keys_consistent_witness :
    create_and_fill_model [] 2 ["sh"] "Sh" (mkRat 996 100) 1500 =
      [{ pid := 2
         name := "Sh"
         cpu_display := fmt1 (mkRat 996 100)
         mem_display := format_number 1500
         disk_display := ""
         name_lowercase := lowerStr "Sh"
         cpu_f32 := mkRat 996 100
         mem_u64 := 1500
         disk_u64 := 0 }] :=
  claim_C3_sort_keys_consistent.1 [] 2 ["sh"] "Sh" (mkRat 996 100) 1500
    (by decide) (by decide)

/-- C4: across any sequence of `ProcDialog::update` calls the stored
memory and disk peaks never decrease; the peak label is rewritten exactly
when the newly observed value strictly exceeds the stored peak; the
invariant "peak label equals the formatted current peak" is preserved by
every update; and observing memory 100, then 50, then 200 starting from
peak 0 leaves the label at the formatted value of the 200-observation,
rewritten exactly twice. -/
theorem claim_C4_peak_tracking :
    (∀ (s : ProcDialogState) (ps : List ProcessInfo)
        (s' : ProcDialogState),
      pd_updates s ps = some s' →
        s.memory_peak ≤ s'.memory_peak ∧ s.disk_peak ≤ s'.disk_peak) ∧
    (∀ (s : ProcDialogState) (p : ProcessInfo) (s' : ProcDialogState),
      pd_update s p = some s' → s.is_dead = false →
        ((s'.memory_peak_writes = s.memory_peak_writes + 1 ↔
            p.memory * 1000 > s.memory_peak) ∧
          (s'.disk_peak_writes = s.disk_peak_writes + 1 ↔
            p.disk_written + p.disk_read > s.disk_peak))) ∧
    (∀ (s : ProcDialogState) (p : ProcessInfo) (s' : ProcDialogState),
      pd_update s p = some s' →
        (s.memory_peak_label = format_number s.memory_peak →
          s'.memory_peak_label = format_number s'.memory_peak) ∧
        (s.disk_peak_label = format_number s.disk_peak →
          s'.disk_peak_label = format_number s'.disk_peak)) ∧
    (pd_updates sampleS0 [sampleP 100, sampleP 50, sampleP 200]).map
        (fun s =>
          (s.memory_peak, s.memory_peak_label, s.memory_peak_writes)) =
      some (200000, format_number 200000, 2) := by
  refine ⟨?_, ?_, ?_, by decide⟩
  · intro s ps s' h
    exact pd_updates_mono ps s s' h
  · intro s p s' h hd
    obtain ⟨-, -, -, hmw, -, -, hdw, -, -⟩ := pd_update_alive s p s' h hd
    constructor
    · rw [hmw]
      by_cases hc : p.memory * 1000 > s.memory_peak <;> simp [hc]
    · rw [hdw]
      by_cases hc : p.disk_written + p.disk_read > s.disk_peak <;>
        simp [hc]
  · intro s p s' h
    by_cases hd : s.is_dead = true
    · rw [pd_update_dead s p hd] at h
      simp only [Option.some.injEq] at h
      subst h
      exact ⟨fun hl => hl, fun hl => hl⟩
    · rw [Bool.not_eq_true] at hd
      obtain ⟨-, hmp, hml, -, hdp, hdl, -, -, -⟩ :=
        pd_update_alive s p s' h hd
      constructor
      · intro hlab
        rw [hml, hmp]
        by_cases hc : p.memory * 1000 > s.memory_peak <;> simp [hc, hlab]
      · intro hlab
        rw [hdl, hdp]
        by_cases hc : p.disk_written + p.disk_read > s.disk_peak <;>
          simp [hc, hlab]

theorem claim_C4_peak_tracking_witness :
    (sampleS0.memory_peak ≤ sampleS1.memory_peak ∧
      sampleS0.disk_peak ≤ sampleS1.disk_peak) ∧
    (sampleS1.memory_peak_writes = sampleS0.memory_peak_writes + 1 ↔
      (sampleP 100).memory * 1000 > sampleS0.memory_peak) :=
  ⟨claim_C4_peak_tracking.1 sampleS0 [sampleP 100] sampleS1 (by decide),
    (claim_C4_peak_tracking.2.1 sampleS0 (sampleP 100) sampleS1
      (by decide) rfl).1⟩

/-- C5: `ProcDialog::set_dead` is idempotent and terminal — the first
call sets `is_dead`, freezes memory/disk displays to "0", the cpu display
to "0%" and rewrites the run-time label to "Ran for {previous text}" (or
"Ran for 0s" when that text was empty); a second call changes nothing,
and once dead every `update` returns without modifying any state. -/
theorem claim_C5_set_dead_terminal :
    (∀ s : ProcDialogState, set_dead (set_dead s) = set_dead s) ∧
    (∀ s : ProcDialogState, s.is_dead = false →
      (set_dead s).is_dead = true ∧
      (set_dead s).memory_usage = "0" ∧
      (set_dead s).disk_usage = "0" ∧
      (set_dead s).cpu_usage = "0%" ∧
      (set_dead s).run_time =
        "Ran for " ++ (if s.run_time.isEmpty then "0s" else s.run_time)) ∧
    (∀ (s : ProcDialogState) (p : ProcessInfo), s.is_dead = true →
      pd_update s p = some s) := by
  refine ⟨?_, ?_, ?_⟩
  · intro s
    by_cases h : s.is_dead = true <;> simp [set_dead, h]
  · intro s h
    simp [set_dead, h]
  · intro s p h
    exact pd_update_dead s p h

theorem claim_C5_set_dead_terminal_witness :
    ((set_dead sampleS0).is_dead = true ∧
      (set_dead sampleS0).memory_usage = "0" ∧
      (set_dead sampleS0).disk_usage = "0" ∧
      (set_dead sampleS0).cpu_usage = "0%" ∧
      (set_dead sampleS0).run_time =
        "Ran for " ++ (if sampleS0.run_time.isEmpty then "0s"
          else sampleS0.run_time)) ∧
    pd_update (set_dead sampleS0) (sampleP 50) = some (set_dead sampleS0) :=
  ⟨claim_C5_set_dead_terminal.2.1 sampleS0 rfl,
    claim_C5_set_dead_terminal.2.2 (set_dead sampleS0) (sampleP 50)
      (by decide)⟩

/-- C7 counterexample: the claim asserts an input of 100,000,000 selects
the MB-range unit, but 100,000,000 is at or above the 10,000,000
threshold and below 10,000,000,000, so the code selects "GB". -/
theorem claim_C7_counterexample :
    (ram_label_callback 100000000).unit = "GB" ∧ ("GB" : String) ≠ "MB" :=
  ⟨by decide, by decide⟩

/-- C7 (amended): the byte-valued axis-label formatter selects its unit
purely by comparing the input ceiling against the fixed thresholds — kB
below 100,000, MB below 10,000,000, GB below 10,000,000,000, TB otherwise
— and divides the top and mid labels by the same per-unit divisor (the
mid label being the half value), with the bottom label always "0"; an
input of 999 renders in the base unit and an input of 100,000,000 selects
the GB-range unit. -/
theorem claim_C7_axis_unit_selection :
    (∀ v : ℚ,
      (ram_label_callback v).unit =
        (if v < 100000 then "kB" else if v < 10000000 then "MB"
          else if v < 10000000000 then "GB" else "TB") ∧
      (ram_label_callback v).bottom = "0" ∧
      (ram_label_callback v).top = v / ram_label_divisor v ∧
      (ram_label_callback v).mid = v / (2 * ram_label_divisor v)) ∧
    (ram_label_callback 999).unit = "kB" ∧
    (ram_label_callback 100000000).unit = "GB" := by
  refine ⟨?_, by decide, by decide⟩
  intro v
  unfold ram_label_callback ram_label_divisor
  split_ifs with h1 h2 h3
  · exact ⟨rfl, rfl, (div_one v).symm,
      by rw [mkRat_num_mul_den v 2]; norm_num⟩
  · exact ⟨rfl, rfl, by rw [mkRat_num_mul_den v 1000]; norm_num,
      by rw [mkRat_num_mul_den v 2000]; norm_num⟩
  · exact ⟨rfl, rfl, by rw [mkRat_num_mul_den v 1000000]; norm_num,
      by rw [mkRat_num_mul_den v 2000000]; norm_num⟩
  · exact ⟨rfl, rfl, by rw [mkRat_num_mul_den v 1000000000]; norm_num,
      by rw [mkRat_num_mul_den v 2000000000]; norm_num⟩

/-- C8 counterexample: the claim asserts `ProcDialog::update` completes
without panicking for every input state even when `get_mut(0)` returns
the "no such index" signal; on a state whose history buffer has zero
capacity, `get_mut(0)` returns that signal and the `expect` in `update`
panics (modelled as `none`). -/
theorem claim_C8_counterexample :
    pd_update emptyHistS (sampleP 1) = none := by decide

/-- C8 (amended): a lookup of a sample index at or beyond a rotating
buffer's capacity yields the "no such index" signal (`none`);
`DisplaySysInfo::update_system_info` treats that result as "no update
performed" and always completes; `ProcDialog::update` instead panics on
it via `expect`, but completes without panicking on every state whose
history buffers are non-empty (as every buffer the program constructs
is). -/
theorem claim_C8_history_bounds :
    (∀ (r : RotateVec) (i : Nat) (v : ℚ), r.data.length ≤ i →
      r.set i v = none) ∧
    (∀ (st : DisplaySysInfoState) (sys : SysInfo),
      st.ram_series.data = [] →
        (update_system_info st sys).ram_series = st.ram_series) ∧
    (∀ (s : ProcDialogState) (p : ProcessInfo),
      s.ram_hist.data ≠ [] → s.cpu_hist.data ≠ [] →
      s.disk_hist.data ≠ [] → (pd_update s p).isSome = true) := by
  refine ⟨?_, ?_, ?_⟩
  · intro r i v h
    unfold RotateVec.set
    rw [if_neg (show ¬ i < r.data.length by omega)]
  · intro st sys h
    exact setD_empty st.ram_series ((sys.used_memory : Nat) : ℚ) h
  · intro s p h1 h2 h3
    by_cases hd : s.is_dead = true
    · rw [pd_update_dead s p hd]
      rfl
    · rw [Bool.not_eq_true] at hd
      unfold pd_update
      rw [hd]
      have l1 : 0 < (s.ram_hist.move_start).data.length := by
        rw [move_start_length]
        exact List.length_pos.mpr h1
      have l2 : 0 < (s.cpu_hist.move_start).data.length := by
        rw [move_start_length]
        exact List.length_pos.mpr h2
      have l3 : 0 < (s.disk_hist.move_start).data.length := by
        rw [move_start_length]
        exact List.length_pos.mpr h3
      simp [RotateVec.set, l1, l2, l3]

theorem claim_C8_history_bounds_witness :
    RotateVec.set ⟨[0, 0]⟩ 5 1 = none ∧
    (update_system_info emptySt sampleSys).ram_series =
      emptySt.ram_series ∧
    (pd_update sampleS0 (sampleP 1)).isSome = true :=
  ⟨claim_C8_history_bounds.1 ⟨[0, 0]⟩ 5 1 (by decide),
    claim_C8_history_bounds.2.1 emptySt sampleSys rfl,
    claim_C8_history_bounds.2.2 sampleS0 (sampleP 1) (by decide)
      (by decide) (by decide)⟩

/-- C9 counterexample: the claim asserts every memory figure this core
displays or tracks is the provider's memory value multiplied by 1,000
before any use; but `DisplaySysInfo::update_system_info` stores the raw
kB value into the RAM history sample — with 7 kB used, the tracked
sample is 7, not 7000. -/
theorem claim_C9_counterexample :
    (update_system_info sampleSt sampleSys).ram_series.data.head? =
      some ((7 : ℚ)) ∧ ((7 : ℚ)) ≠ ((7000 : ℚ)) :=
  ⟨by decide, by decide⟩

/-- C9 (amended): the enumerated memory figures are the provider's
memory value multiplied by 1,000 (kB to bytes) before use —
`ProcDialog::update` feeds memory() * 1000 to the display label, the
peak comparison and the RAM history sample; the process-list row uses
memory() * 1000 for both its display string and its sort key; and the
RAM/swap progress-bar texts format used * 1000 and total * 1000 — while
the RAM/swap graph history samples of `DisplaySysInfo` store the raw kB
value instead. -/
theorem claim_C9_kb_to_bytes_conversion :
    (∀ (s : ProcDialogState) (p : ProcessInfo) (s' : ProcDialogState),
      pd_update s p = some s' → s.is_dead = false →
        s'.memory_usage = format_number (p.memory * 1000) ∧
        s'.memory_peak = (if p.memory * 1000 > s.memory_peak then
          p.memory * 1000 else s.memory_peak) ∧
        s'.ram_hist.data.head? = some ((p.memory * 1000 : Nat) : ℚ)) ∧
    (∀ (store : List Row) (e : ProcessEntry),
      e.cmd ≠ [] → e.exe_file_name.getD e.name ≠ "" →
      procs_new_fill store [e] =
        store ++ [{ pid := e.pid
                    name := e.exe_file_name.getD e.name
                    cpu_display := fmt1 e.cpu_usage
                    mem_display := format_number (e.memory * 1000)
                    disk_display := ""
                    name_lowercase :=
                      lowerStr (e.exe_file_name.getD e.name)
                    cpu_f32 := e.cpu_usage
                    mem_u64 := e.memory * 1000
                    disk_u64 := 0 }]) ∧
    (∀ (st : DisplaySysInfoState) (sys : SysInfo),
      (update_system_info st sys).ram_text =
        format_number (sys.used_memory * 1000) ++ " / " ++
          format_number (sys.total_memory * 1000) ∧
      (update_system_info st sys).swap_text =
        format_number (sys.used_swap * 1000) ++ " / " ++
          format_number (sys.total_swap * 1000)) := by
  refine ⟨?_, ?_, ?_⟩
  · intro s p s' h hd
    obtain ⟨hmu, hmp, -, -, -, -, -, -, hh⟩ := pd_update_alive s p s' h hd
    exact ⟨hmu, hmp, hh⟩
  · intro store e hc hn
    unfold procs_new_fill
    simp only [List.foldl]
    exact create_and_fill_model_append store e.pid e.cmd
      (e.exe_file_name.getD e.name) e.cpu_usage (e.memory * 1000) hc hn
  · intro st sys
    exact ⟨rfl, rfl⟩

theorem claim_C9_kb_to_bytes_conversion_witness :
    sampleS1.memory_usage = format_number ((sampleP 100).memory * 1000) ∧
    sampleS1.ram_hist.data.head? =
      some (((sampleP 100).memory * 1000 : Nat) : ℚ) :=
  ⟨(claim_C9_kb_to_bytes_conversion.1 sampleS0 (sampleP 100) sampleS1
      (by decide) rfl).1,
    (claim_C9_kb_to_bytes_conversion.1 sampleS0 (sampleP 100) sampleS1
      (by decide) rfl).2.2⟩
